import Mathlib

/-!
Verification of the Wave-Modules example agent module
(`src/example_agent/module.py`).

The module is a query dispatcher: `process(query, context)` parses a query
string of the form `"operation: content"`, dispatches to one of six handler
functions, and wraps the handler's result in a uniform response envelope.

Shallow embedding conventions:
* Python strings are `List Char` (`Str` below); `str.strip`, `str.lower`,
  `str.split(":", 1)`, `str.replace`, `str.capitalize` are embedded as
  executable functions over `List Char` (ASCII-faithful).
* Python dict values are the inductive `Val`; dicts are association lists.
* The external collaborators `get_file_path`, `extract_file_reference` and
  `is_url` (imported from `master_agent.common`, not part of this
  repository) are parameters of the dispatcher, modelled from the spec:
  `get_file_path(name, dir_type) -> path`, `extract_file_reference(text)
  -> token | None`, `is_url(token) -> bool`.
* File writes are returned explicitly as a list of `(path, contents)`
  pairs; `time.strftime(...)` and `int(time.time())` are the two fields of
  a `Time` parameter.
* Python exceptions raised inside a handler are `Except.error` carrying the
  exception message; the dispatcher's `try/except` catches them.  All six
  handlers are synchronous `def`s in the source, so the event-loop branch
  of the dispatcher (`asyncio.iscoroutinefunction` is false for all of
  them) is dead code and the dispatch is a direct call.
-/

namespace WaveModules

/-- Python strings, embedded as lists of characters. -/
abbrev Str := List Char

/-- Coerce a Lean string literal to the embedded string type. -/
def lit (s : String) : Str := s.data

/-- Python `str.isspace` for the ASCII whitespace characters handled by
`str.strip()`. -/
def pyIsSpace (c : Char) : Bool :=
  c = ' ' || c = '\t' || c = '\n' || c = '\r' || c = '\x0b' || c = '\x0c'

/-- Python `str.strip()`: drop whitespace from both ends. -/
def pyStrip (s : Str) : Str :=
  ((s.dropWhile pyIsSpace).reverse.dropWhile pyIsSpace).reverse

/-- Lower-case a single ASCII character. -/
def toLowerChar (c : Char) : Char :=
  if 'A' ≤ c ∧ c ≤ 'Z' then Char.ofNat (c.toNat + 32) else c

/-- Upper-case a single ASCII character. -/
def toUpperChar (c : Char) : Char :=
  if 'a' ≤ c ∧ c ≤ 'z' then Char.ofNat (c.toNat - 32) else c

/-- Python `str.lower()` (ASCII). -/
def pyLower (s : Str) : Str := s.map toLowerChar

/-- Python `str.capitalize()`: first character upper-cased, rest
lower-cased. -/
def pyCapitalize : Str → Str
  | [] => []
  | c :: cs => toUpperChar c :: pyLower cs

/-- Split at the first occurrence of `sep`, as in Python
`s.split(sep, 1)`: `none` when `sep` does not occur. -/
def splitOnFirst (sep : Char) : Str → Option (Str × Str)
  | [] => none
  | c :: cs =>
    if c = sep then some ([], cs)
    else
      match splitOnFirst sep cs with
      | some (a, b) => some (c :: a, b)
      | none => none

/-- Python `s.replace(old, new)`: replace every non-overlapping occurrence
of `old`, scanning left to right.  (An empty `old` is treated as matching
nothing; the dispatcher only calls this with a non-empty token.) -/
def pyReplace (old new : Str) : Str → Str
  | [] => []
  | c :: cs =>
    if _h : 0 < old.length ∧ old.isPrefixOf (c :: cs) = true then
      new ++ pyReplace old new ((c :: cs).drop old.length)
    else
      c :: pyReplace old new cs
termination_by s => s.length
decreasing_by
  · simp only [List.length_drop, List.length_cons]
    omega
  · simp only [List.length_cons]
    omega

/-- The last path component, as `pathlib.PurePosixPath(p).name` computes it
for the slash-separated names this module builds: trailing slashes are
ignored, then everything after the last `/` is the name. -/
def pathName (p : Str) : Str :=
  let q := (p.reverse.dropWhile (· == '/')).reverse
  (q.reverse.takeWhile (· != '/')).reverse

/-- Decimal digit character. -/
def digitChar (d : Nat) : Char := Char.ofNat (48 + d)

/-- Digit-by-digit rendering with a structural fuel argument, so that the
kernel can evaluate it; any `fuel > n` gives the full rendering. -/
def natReprAux (fuel : Nat) (n : Nat) : Str :=
  match fuel with
  | 0 => []
  | f + 1 =>
    if n < 10 then [digitChar n]
    else natReprAux f (n / 10) ++ [digitChar (n % 10)]

/-- Decimal rendering of a natural number, as Python `str(int)` renders the
non-negative integers. -/
def natRepr (n : Nat) : Str := natReprAux (n + 1) n

/-- Read a decimal digit string back; left inverse of `natRepr`. -/
def parseNatDigits (s : Str) : Nat :=
  s.foldl (fun a c => a * 10 + (c.toNat - 48)) 0

/-- Python `sep.join(xs)`. -/
def pyJoin (sep : Str) : List Str → Str
  | [] => []
  | [x] => x
  | x :: xs => x ++ sep ++ pyJoin sep xs

/-- Python values, as far as this module builds or inspects them. -/
inductive Val where
  | s (v : Str)
  | n (v : Nat)
  | b (v : Bool)
  | list (v : List Val)
  | dict (v : List (Str × Val))

/-- A Python dict with string keys, as an association list. -/
abbrev Dict := List (Str × Val)

/-- Dict lookup: `d[k]` / `d.get(k)`. -/
def dlookup (d : Dict) (k : Str) : Option Val :=
  (d.find? (fun p => p.1 == k)).map (·.2)

/-- Python `k in d`. -/
def hasKey (d : Dict) (k : Str) : Bool := (dlookup d k).isSome

/-- Python `str(v)`.  Only the string case is ever reached by the
dispatcher (every handler's `output` field is a string); the remaining
cases are a coarse rendering. -/
def pyStr : Val → Str
  | .s v => v
  | .n v => natRepr v
  | .b true => lit "True"
  | .b false => lit "False"
  | .list _ => lit "[...]"
  | .dict _ => lit "dict"

/-- The optional `context` argument: `None` or a dict mapping module names
to opaque module data. -/
abbrev Ctx := Option Dict

/-- Python truthiness of the `context` argument (`if context:`): `None`
and the empty dict are falsy. -/
def ctxTruthy : Ctx → Bool
  | none => false
  | some l => !l.isEmpty

/-- Python truthiness of an optional string (`if file_ref:`). -/
def optTruthy : Option Str → Bool
  | none => false
  | some s => !s.isEmpty

/-- Python `o or d` for an optional string. -/
def orDefault (o : Option Str) (d : Str) : Str :=
  match o with
  | some s => if s.isEmpty then d else s
  | none => d

/-- The two time observations the module makes:
`time.strftime("%Y-%m-%d %H:%M:%S")` and `int(time.time())`. -/
structure Time where
  fmt : Str
  epoch : Nat

/-- The content passed to a handler: either the raw string from the query,
or the structured record built in step 4 of `process` when a file
reference is detected. -/
inductive Content where
  | str (s : Str)
  | record (file_ref : Str) (file_path : Str) (is_url : Bool) (query : Str)

/-- A file write performed by a handler: (path, contents). -/
abbrev Write := Str × Str

/-- The external `get_file_path(name, dir_type)` collaborator. -/
abbrev Gfp := Str → Str → Str

/-- The external `is_url(token)` collaborator. -/
abbrev IsUrl := Str → Bool

/-- The external `extract_file_reference(text)` collaborator. -/
abbrev Efr := Str → Option Str

/-- The response envelope returned by `process`. -/
structure Envelope where
  status : Str
  message : Str
  data : Dict

/-- Outcome of a handler: an exception message, or the writes it performed
together with its result dict. -/
abbrev HandlerResult := Except Str (List Write × Dict)

/-- A handler's uniform signature. -/
abbrev Handler := Gfp → IsUrl → Time → Content → Ctx → HandlerResult

/-- Success-or-error outcome of a handler run. -/
def hIsOk : HandlerResult → Bool
  | .ok _ => true
  | .error _ => false

/-- The paths of the files a handler run wrote. -/
def writePaths : HandlerResult → List Str
  | .ok (ws, _) => ws.map Prod.fst
  | .error _ => []

/-- `Module._parse_query`: split on the first colon, trim, lower-case the
operation; default operation is `process` when no colon is present. -/
def parse_query (query : Str) : Str × Str :=
  match splitOnFirst ':' query with
  | some (operation, content) => (pyLower (pyStrip operation), pyStrip content)
  | none => (lit "process", pyStrip query)

/-- `Module._process_text`. -/
def process_text : Handler := fun gfp _ t content ctx =>
  let text_content := match content with
    | .str s => s
    | .record _ _ _ q => q
  let file_ref : Option Str := match content with
    | .str _ => none
    | .record f _ _ _ => some f
  let temp_file := gfp (lit "processed_text.txt") (lit "temp")
  let body := pyStrip (lit "\nProcessed at " ++ t.fmt ++
    lit "\nSource: " ++ orDefault file_ref (lit "Direct input") ++
    lit "\nContent: " ++ text_content ++ lit "\n        ")
  Except.ok ([(temp_file, body)],
    [(lit "output", Val.s (lit "Processed " ++
        (if optTruthy file_ref then lit "file" else lit "text") ++
        lit " and saved to " ++ pathName temp_file)),
     (lit "source", Val.s (orDefault file_ref (lit "direct_input"))),
     (lit "length", Val.n text_content.length),
     (lit "temp_file", Val.s temp_file),
     (lit "context_used", Val.b (ctxTruthy ctx))])

/-- The context-scanning loop of `Module._analyze_data`: for each module
whose data is a dict, note the presence of the keys `content` and
`metadata`. -/
def analyze_context_summary (ctx : Ctx) : List Str :=
  if ctxTruthy ctx then
    ((ctx.getD []).map (fun p =>
      match p.2 with
      | Val.dict d =>
          (if hasKey d (lit "content") then [lit "Content from " ++ p.1] else []) ++
          (if hasKey d (lit "metadata") then [lit "Metadata from " ++ p.1] else [])
      | _ => [])).flatten
  else []

/-- `Module._analyze_data`. -/
def analyze_data : Handler := fun gfp _ t content ctx =>
  let source := match content with
    | .record f _ _ _ => f
    | .str _ => lit "direct_input"
  let query := match content with
    | .record _ _ _ q => q
    | .str s => s
  let is_remote := match content with
    | .record _ _ u _ => u
    | .str _ => false
  let results_file := gfp (lit "analysis_results.txt") (lit "files")
  let context_summary := analyze_context_summary ctx
  let analysis_content := pyStrip (lit "\nAnalysis Results\n---------------\nTime: " ++
    t.fmt ++ lit "\nSource: " ++ source ++ lit " (" ++
    (if is_remote then lit "remote" else lit "local") ++
    lit ")\nQuery: " ++ query ++ lit "\nContext Sources: " ++
    (if context_summary.isEmpty then lit "None" else pyJoin (lit ", ") context_summary) ++
    lit "\n        ")
  Except.ok ([(results_file, analysis_content)],
    [(lit "output", Val.s (lit "Analyzed " ++
        (if is_remote then lit "remote" else lit "local") ++ lit " data and saved results")),
     (lit "source", Val.s source),
     (lit "query", Val.s query),
     (lit "context_sources", Val.list ((if ctxTruthy ctx then context_summary else []).map Val.s)),
     (lit "results_file", Val.s results_file)])

/-- The context-scanning loop of `Module._generate_content`. -/
def generate_enhancements (ctx : Ctx) : List Str :=
  if ctxTruthy ctx then
    ((ctx.getD []).map (fun p =>
      match p.2 with
      | Val.dict d =>
          (if hasKey d (lit "content") then [lit "Enhanced with content from " ++ p.1] else []) ++
          (if hasKey d (lit "metadata") then [lit "Using metadata from " ++ p.1] else [])
      | _ => [])).flatten
  else []

/-- `Module._generate_content`. -/
def generate_content : Handler := fun gfp _ t content ctx =>
  let topic := match content with
    | .str s => s
    | .record _ _ _ q => q
  let output_file := gfp (lit "generated_" ++ natRepr t.epoch ++ lit ".txt") (lit "files")
  let enhancements := generate_enhancements ctx
  let generated_content := pyStrip (lit "\nGenerated Content\n----------------\nTopic: " ++
    topic ++ lit "\nTime: " ++ t.fmt ++ lit "\nEnhancements: " ++
    (if enhancements.isEmpty then lit "None" else pyJoin (lit ", ") enhancements) ++
    lit "\n\nThis is an example of generated content about " ++ topic ++
    lit ".\nThe content can be enhanced with context from other modules.\n        ")
  Except.ok ([(output_file, generated_content)],
    [(lit "output", Val.s (lit "Generated content about " ++ topic)),
     (lit "topic", Val.s topic),
     (lit "enhancements", Val.list (enhancements.map Val.s)),
     (lit "output_file", Val.s output_file)])

/-- The tail of `Module._save_file` after filename and content have been
obtained: the truthiness validation, the strips, and the write. -/
def save_file_checked (gfp : Gfp) (filename file_content : Str) : HandlerResult :=
  if filename.isEmpty || file_content.isEmpty then
    Except.error (lit "Both filename and content are required")
  else
    let filename2 := pyStrip filename
    let file_content2 := pyStrip file_content
    let output_file := gfp filename2 (lit "files")
    Except.ok ([(output_file, file_content2)],
      [(lit "output", Val.s (lit "Saved content to " ++ pathName output_file)),
       (lit "file_path", Val.s output_file),
       (lit "size", Val.n file_content2.length)])

/-- `Module._save_file`. -/
def save_file : Handler := fun gfp _ _ content _ =>
  match content with
  | .str s =>
    match splitOnFirst ':' s with
    | none => Except.error (lit "Save operation requires format: filename:content")
    | some (filename, file_content) => save_file_checked gfp filename file_content
  | .record f _ _ q => save_file_checked gfp f q

/-- `Module._download_content`.  (Python renders the raised `ValueError`
and the `KeyError` below with quotes; the messages here are the plain
text.) -/
def download_content : Handler := fun gfp iu t content _ =>
  let url := match content with
    | .str s => s
    | .record f _ _ _ => f
  if url.isEmpty || !(iu url) then
    Except.error (lit "Valid URL is required for download operation")
  else
    let filename := if (pathName url).isEmpty then lit "downloaded_content.txt" else pathName url
    let download_file := gfp filename (lit "downloads")
    let downloaded_content := pyStrip (lit "\nDownloaded Content\n----------------\nSource: " ++
      url ++ lit "\nTime: " ++ t.fmt ++ lit "\nStatus: Success\nQuery: " ++
      (match content with | .record _ _ _ q => q | .str _ => lit "None") ++
      lit "\n        ")
    Except.ok ([(download_file, downloaded_content)],
      [(lit "output", Val.s (lit "Downloaded content from " ++ url)),
       (lit "source", Val.s url),
       (lit "download_path", Val.s download_file),
       (lit "size", Val.n downloaded_content.length)])

/-- The context-scanning loop of `Module._extract_info`: (key, module)
pairs for the keys `content`, `metadata`, `answer`. -/
def extract_context_data (ctx : Ctx) : List (Str × Str) :=
  if ctxTruthy ctx then
    ((ctx.getD []).map (fun p =>
      match p.2 with
      | Val.dict d =>
          (if hasKey d (lit "content") then [(lit "content", p.1)] else []) ++
          (if hasKey d (lit "metadata") then [(lit "metadata", p.1)] else []) ++
          (if hasKey d (lit "answer") then [(lit "answer", p.1)] else [])
      | _ => [])).flatten
  else []

/-- `Module._extract_info`. -/
def extract_info : Handler := fun gfp _ t content ctx =>
  let source := match content with
    | .record f _ _ _ => f
    | .str _ => lit "direct_input"
  let query := match content with
    | .record _ _ _ q => q
    | .str s => s
  let is_remote := match content with
    | .record _ _ u _ => u
    | .str _ => false
  let output_file := gfp (lit "extracted_" ++ natRepr t.epoch ++ lit ".txt") (lit "files")
  let context_data := extract_context_data ctx
  let extraction_content := pyStrip (lit "\nExtraction Results\n-----------------\nTime: " ++
    t.fmt ++ lit "\nSource: " ++ source ++ lit " (" ++
    (if is_remote then lit "remote" else lit "local") ++
    lit ")\nQuery: " ++ query ++ lit "\nContext Used: " ++
    pyJoin (lit ", ") (context_data.map (fun p => p.1 ++ lit " from " ++ p.2)) ++
    lit "\n\nThis is a demonstration of information extraction.\nThe extraction can be enhanced with context from other modules.\n        ")
  Except.ok ([(output_file, extraction_content)],
    [(lit "output", Val.s (lit "Extracted information from " ++ source)),
     (lit "source", Val.s source),
     (lit "query", Val.s query),
     (lit "context_data", Val.list (context_data.map (fun p => Val.list [Val.s p.1, Val.s p.2]))),
     (lit "output_file", Val.s output_file)])

/-- `Module.__init__`'s `self.supported_operations` dict. -/
def supported_operations : List (Str × Handler) :=
  [(lit "process", process_text),
   (lit "analyze", analyze_data),
   (lit "generate", generate_content),
   (lit "save", save_file),
   (lit "download", download_content),
   (lit "extract", extract_info)]

/-- Python `operation in self.supported_operations` together with
`self.supported_operations[operation]`. -/
def lookupHandler (operation : Str) : Option Handler :=
  (supported_operations.find? (fun p => p.1 == operation)).map (·.2)

/-- The unsupported-operation error envelope (step 3 of `Module.process`). -/
def unsupportedEnvelope (operation : Str) : Envelope :=
  { status := lit "error",
    message := lit "Unsupported operation: " ++ operation,
    data := [(lit "supported_operations", Val.list ((supported_operations.map Prod.fst).map Val.s)),
             (lit "suggestion", Val.s (lit "Try one of the supported operations"))] }

/-- The generic exception envelope (the `except` branch of
`Module.process`). -/
def exceptionEnvelope (e query : Str) : Envelope :=
  { status := lit "error",
    message := lit "An error occurred: " ++ e,
    data := [(lit "error_type", Val.s (lit "unexpected_error")),
             (lit "query_received", Val.s query),
             (lit "suggestion", Val.s (lit "Please check the query format: operation: content"))] }

/-- The success envelope (step 7 of `Module.process`). -/
def successEnvelope (operation : Str) (res : Dict) (out : Val) (t : Time) : Envelope :=
  { status := lit "success",
    message := lit "Successfully processed " ++ operation ++ lit " operation",
    data := [(lit "demo_result", Val.s (pyCapitalize operation ++ lit ": " ++ pyStr out)),
             (lit "operation", Val.s operation),
             (lit "result", Val.dict res),
             (lit "timestamp", Val.s t.fmt)] }

/-- Step 4 of `Module.process`: file-reference extraction.  When the
extractor returns a truthy token, the flat string content is replaced by
the structured record. -/
def resolveContent (efr : Efr) (gfp : Gfp) (iu : IsUrl) (content : Str) : Content :=
  match efr content with
  | some file_ref =>
    if file_ref.isEmpty then Content.str content
    else
      Content.record file_ref (gfp file_ref (lit "files")) (iu file_ref)
        (let q := pyStrip (pyReplace file_ref [] content)
         if q.isEmpty then lit "Please process this content" else q)
  | none => Content.str content

/-- Step 7 of `Module.process`: look up `result["output"]` (a missing key
would raise `KeyError`, caught by the `except` branch) and build the
success envelope. -/
def wrapResult (operation query : Str) (t : Time) (ws : List Write) (res : Dict) :
    Envelope × List Write :=
  match dlookup res (lit "output") with
  | some out => (successEnvelope operation res out t, ws)
  | none => (exceptionEnvelope (lit "KeyError: output") query, ws)

/-- Step 6 of `Module.process`: invoke the handler (all six handlers are
synchronous), catching a raised exception at the dispatcher boundary. -/
def runHandler (handler : Handler) (gfp : Gfp) (iu : IsUrl) (t : Time)
    (c2 : Content) (ctx : Ctx) (operation query : Str) : Envelope × List Write :=
  match handler gfp iu t c2 ctx with
  | .error e => (exceptionEnvelope e query, [])
  | .ok (ws, res) => wrapResult operation query t ws res

/-- `Module.process`: the dispatcher.  Returns the envelope together with
the list of file writes the call performed. -/
def process (efr : Efr) (gfp : Gfp) (iu : IsUrl) (t : Time)
    (query : Str) (ctx : Ctx) : Envelope × List Write :=
  match lookupHandler (parse_query query).1 with
  | none => (unsupportedEnvelope (parse_query query).1, [])
  | some handler =>
    runHandler handler gfp iu t (resolveContent efr gfp iu (parse_query query).2) ctx
      (parse_query query).1 query

/-- A sample file-reference extractor that never detects a reference, used
to instantiate the external collaborator in concrete witnesses. -/
def efr0 : Efr := fun _ => none

/-- A sample path resolver: `dir_type ++ "/" ++ name`. -/
def gfp0 : Gfp := fun name dir => dir ++ '/' :: name

/-- A sample URL predicate: an `http://` or `https://` scheme. -/
def iu0 : IsUrl := fun s =>
  (lit "http://").isPrefixOf s || (lit "https://").isPrefixOf s

/-- A sample time observation. -/
def t0 : Time := ⟨lit "2024-01-01 00:00:00", 1704067200⟩

/-- A second sample time observation, one second later. -/
def t1 : Time := ⟨lit "2024-01-01 00:00:01", 1704067201⟩

/-! Helper lemmas about the embedded string primitives. -/

theorem splitOnFirst_eq_none_of_not_mem {sep : Char} {s : Str} (h : sep ∉ s) :
    splitOnFirst sep s = none := by
  induction s with
  | nil => rfl
  | cons c cs ih =>
    have h1 : ¬ c = sep := fun hc => h (hc ▸ List.mem_cons_self c cs)
    have h2 : sep ∉ cs := fun hc => h (List.mem_cons_of_mem c hc)
    simp only [splitOnFirst, if_neg h1, ih h2]

theorem splitOnFirst_append {sep : Char} {a : Str} (b : Str) (h : sep ∉ a) :
    splitOnFirst sep (a ++ sep :: b) = some (a, b) := by
  induction a with
  | nil => simp [splitOnFirst]
  | cons c cs ih =>
    have h1 : ¬ c = sep := fun hc => h (hc ▸ List.mem_cons_self c cs)
    have h2 : sep ∉ cs := fun hc => h (List.mem_cons_of_mem c hc)
    simp only [List.cons_append, splitOnFirst, if_neg h1, List.append_eq, ih h2]

theorem mem_of_mem_dropWhile {p : Char → Bool} {c : Char} :
    ∀ {s : Str}, c ∈ s.dropWhile p → c ∈ s := by
  intro s
  induction s with
  | nil => intro h; exact absurd h (List.not_mem_nil c)
  | cons d ds ih =>
    intro h
    rw [List.dropWhile_cons] at h
    by_cases hd : p d
    · simp only [hd, if_true] at h
      exact List.mem_cons_of_mem d (ih h)
    · simpa [hd] using h

theorem mem_of_mem_pyStrip {c : Char} {s : Str} (h : c ∈ pyStrip s) : c ∈ s := by
  unfold pyStrip at h
  rw [List.mem_reverse] at h
  have h2 := mem_of_mem_dropWhile h
  rw [List.mem_reverse] at h2
  exact mem_of_mem_dropWhile h2

theorem pyStrip_eq_nil {s : Str} (h : ∀ c ∈ s, pyIsSpace c = true) : pyStrip s = [] := by
  unfold pyStrip
  rw [List.dropWhile_eq_nil_iff.mpr h]
  rfl

theorem digitChar_toNat {d : Nat} (h : d < 10) : (digitChar d).toNat = 48 + d := by
  interval_cases d <;> decide

theorem parseNatDigits_natReprAux :
    ∀ fuel n, n < fuel → parseNatDigits (natReprAux fuel n) = n := by
  intro fuel
  induction fuel with
  | zero => intro n h; omega
  | succ f ih =>
    intro n h
    by_cases h10 : n < 10
    · simp only [natReprAux, if_pos h10, parseNatDigits, List.foldl]
      rw [digitChar_toNat h10]
      omega
    · have hdiv : n / 10 < n := Nat.div_lt_self (by omega) (by omega)
      have hf : n / 10 < f := by omega
      simp only [natReprAux, if_neg h10, parseNatDigits, List.foldl_append]
      have hih := ih (n / 10) hf
      unfold parseNatDigits at hih
      rw [hih]
      simp only [List.foldl]
      rw [digitChar_toNat (Nat.mod_lt n (by omega))]
      omega

theorem natRepr_injective {a b : Nat} (h : natRepr a = natRepr b) : a = b := by
  have ha := parseNatDigits_natReprAux (a + 1) a (by omega)
  have hb := parseNatDigits_natReprAux (b + 1) b (by omega)
  unfold natRepr at h
  rw [h] at ha
  rw [hb] at ha
  exact ha.symm

/-! Helper lemmas about the dispatcher. -/

theorem lookupHandler_eq_none {operation : Str}
    (h : operation ∉ supported_operations.map Prod.fst) :
    lookupHandler operation = none := by
  unfold lookupHandler
  rw [List.find?_eq_none.mpr]
  · rfl
  · intro p hp hbeq
    rw [beq_iff_eq] at hbeq
    exact h (hbeq ▸ List.mem_map.mpr ⟨p, hp, rfl⟩)

theorem process_eq_of_lookup_none (efr : Efr) (gfp : Gfp) (iu : IsUrl) (t : Time)
    (q : Str) (ctx : Ctx) (hl : lookupHandler (parse_query q).1 = none) :
    process efr gfp iu t q ctx = (unsupportedEnvelope (parse_query q).1, []) := by
  unfold process
  simp only [hl]

theorem process_eq_of_lookup_some (efr : Efr) (gfp : Gfp) (iu : IsUrl) (t : Time)
    (q : Str) (ctx : Ctx) (handler : Handler)
    (hl : lookupHandler (parse_query q).1 = some handler) :
    process efr gfp iu t q ctx =
      runHandler handler gfp iu t (resolveContent efr gfp iu (parse_query q).2) ctx
        (parse_query q).1 q := by
  unfold process
  simp only [hl]

theorem runHandler_error (handler : Handler) (gfp : Gfp) (iu : IsUrl) (t : Time)
    (c2 : Content) (ctx : Ctx) (operation query e : Str)
    (h : handler gfp iu t c2 ctx = Except.error e) :
    runHandler handler gfp iu t c2 ctx operation query = (exceptionEnvelope e query, []) := by
  unfold runHandler
  simp only [h]

theorem runHandler_ok (handler : Handler) (gfp : Gfp) (iu : IsUrl) (t : Time)
    (c2 : Content) (ctx : Ctx) (operation query : Str) (ws : List Write) (res : Dict)
    (out : Val) (h : handler gfp iu t c2 ctx = Except.ok (ws, res))
    (ho : dlookup res (lit "output") = some out) :
    runHandler handler gfp iu t c2 ctx operation query =
      (successEnvelope operation res out t, ws) := by
  unfold runHandler
  simp only [h]
  unfold wrapResult
  simp only [ho]

theorem resolveContent_of_none (efr : Efr) (gfp : Gfp) (iu : IsUrl) (content : Str)
    (h : efr content = none) :
    resolveContent efr gfp iu content = Content.str content := by
  unfold resolveContent
  rw [h]

theorem runHandler_no_output (handler : Handler) (gfp : Gfp) (iu : IsUrl) (t : Time)
    (c2 : Content) (ctx : Ctx) (operation query : Str) (ws : List Write) (res : Dict)
    (h : handler gfp iu t c2 ctx = Except.ok (ws, res))
    (ho : dlookup res (lit "output") = none) :
    runHandler handler gfp iu t c2 ctx operation query =
      (exceptionEnvelope (lit "KeyError: output") query, ws) := by
  unfold runHandler
  simp only [h]
  unfold wrapResult
  simp only [ho]

theorem lookupHandler_mem {operation : Str} {handler : Handler}
    (hl : lookupHandler operation = some handler) :
    ∃ name, (name, handler) ∈ supported_operations := by
  unfold lookupHandler at hl
  rcases hfind : supported_operations.find? (fun p => p.1 == operation) with - | p
  · rw [hfind] at hl
    exact Option.noConfusion hl
  · rw [hfind] at hl
    obtain rfl : p.2 = handler := Option.some.inj hl
    exact ⟨p.1, List.mem_of_find?_eq_some hfind⟩

theorem save_file_checked_output (gfp : Gfp) (fn fc : Str) (ws : List Write) (res : Dict)
    (hr : save_file_checked gfp fn fc = Except.ok (ws, res)) :
    ∃ s, dlookup res (lit "output") = some (Val.s s) := by
  unfold save_file_checked at hr
  split at hr
  · exact Except.noConfusion hr
  · obtain ⟨h1, h2⟩ := Prod.mk.inj (Except.ok.inj hr)
    subst h2
    exact ⟨_, rfl⟩

theorem handler_output_is_string (name : Str) (handler : Handler)
    (hm : (name, handler) ∈ supported_operations)
    (gfp : Gfp) (iu : IsUrl) (t : Time) (c : Content) (ctx : Ctx)
    (ws : List Write) (res : Dict)
    (hr : handler gfp iu t c ctx = Except.ok (ws, res)) :
    ∃ s, dlookup res (lit "output") = some (Val.s s) := by
  simp only [supported_operations, List.mem_cons, List.not_mem_nil, or_false,
    Prod.mk.injEq] at hm
  rcases hm with ⟨-, rfl⟩ | ⟨-, rfl⟩ | ⟨-, rfl⟩ | ⟨-, rfl⟩ | ⟨-, rfl⟩ | ⟨-, rfl⟩
  · obtain ⟨h1, h2⟩ := Prod.mk.inj (Except.ok.inj hr)
    subst h2
    exact ⟨_, rfl⟩
  · obtain ⟨h1, h2⟩ := Prod.mk.inj (Except.ok.inj hr)
    subst h2
    exact ⟨_, rfl⟩
  · obtain ⟨h1, h2⟩ := Prod.mk.inj (Except.ok.inj hr)
    subst h2
    exact ⟨_, rfl⟩
  · cases c with
    | str s =>
      simp only [save_file] at hr
      rcases hsp : splitOnFirst ':' s with - | ⟨fn, fc⟩
      · rw [hsp] at hr
        exact Except.noConfusion hr
      · rw [hsp] at hr
        exact save_file_checked_output gfp fn fc ws res hr
    | record f fp u q2 =>
      simp only [save_file] at hr
      exact save_file_checked_output gfp f q2 ws res hr
  · simp only [download_content] at hr
    split at hr
    · exact Except.noConfusion hr
    · obtain ⟨h1, h2⟩ := Prod.mk.inj (Except.ok.inj hr)
      subst h2
      exact ⟨_, rfl⟩
  · obtain ⟨h1, h2⟩ := Prod.mk.inj (Except.ok.inj hr)
    subst h2
    exact ⟨_, rfl⟩

theorem process_text_ok (gfp : Gfp) (iu : IsUrl) (t : Time) (c : Content) (cx : Ctx) :
    hIsOk (process_text gfp iu t c cx) = true := rfl

theorem process_text_paths (gfp : Gfp) (iu : IsUrl) (t : Time) (c : Content) (cx : Ctx) :
    writePaths (process_text gfp iu t c cx) = [gfp (lit "processed_text.txt") (lit "temp")] := rfl

theorem analyze_data_ok (gfp : Gfp) (iu : IsUrl) (t : Time) (c : Content) (cx : Ctx) :
    hIsOk (analyze_data gfp iu t c cx) = true := rfl

theorem analyze_data_paths (gfp : Gfp) (iu : IsUrl) (t : Time) (c : Content) (cx : Ctx) :
    writePaths (analyze_data gfp iu t c cx) =
      [gfp (lit "analysis_results.txt") (lit "files")] := rfl

theorem generate_content_ok (gfp : Gfp) (iu : IsUrl) (t : Time) (c : Content) (cx : Ctx) :
    hIsOk (generate_content gfp iu t c cx) = true := rfl

theorem generate_content_paths (gfp : Gfp) (iu : IsUrl) (t : Time) (c : Content) (cx : Ctx) :
    writePaths (generate_content gfp iu t c cx) =
      [gfp (lit "generated_" ++ natRepr t.epoch ++ lit ".txt") (lit "files")] := rfl

theorem extract_info_ok (gfp : Gfp) (iu : IsUrl) (t : Time) (c : Content) (cx : Ctx) :
    hIsOk (extract_info gfp iu t c cx) = true := rfl

theorem extract_info_paths (gfp : Gfp) (iu : IsUrl) (t : Time) (c : Content) (cx : Ctx) :
    writePaths (extract_info gfp iu t c cx) =
      [gfp (lit "extracted_" ++ natRepr t.epoch ++ lit ".txt") (lit "files")] := rfl

theorem error_ne_success : lit "error" ≠ lit "success" := by decide

theorem success_ne_error : lit "success" ≠ lit "error" := by decide

/-! The claims. -/

/-- C1: for every query string and every context (including None),
`process` returns a well-formed envelope whose status is either `success`
or `error`; by the totality of `process` (every handler exception is an
`Except.error` consumed by `runHandler`) no exception propagates to the
caller, and the `message`/`data` fields are a string and a mapping by the
`Envelope` type. -/
theorem process_total_wellformed (efr : Efr) (gfp : Gfp) (iu : IsUrl) (t : Time)
    (q : Str) (ctx : Ctx) :
    (process efr gfp iu t q ctx).1.status = lit "success" ∨
    (process efr gfp iu t q ctx).1.status = lit "error" := by
  rcases hl : lookupHandler (parse_query q).1 with - | handler
  · rw [process_eq_of_lookup_none efr gfp iu t q ctx hl]
    right
    rfl
  · rw [process_eq_of_lookup_some efr gfp iu t q ctx handler hl]
    rcases hr : handler gfp iu t (resolveContent efr gfp iu (parse_query q).2) ctx with e | ⟨ws, res⟩
    · rw [runHandler_error _ _ _ _ _ _ _ _ _ hr]
      right
      rfl
    · rcases ho : dlookup res (lit "output") with - | out
      · rw [runHandler_no_output _ _ _ _ _ _ _ _ _ _ hr ho]
        right
        rfl
      · rw [runHandler_ok _ _ _ _ _ _ _ _ _ _ _ hr ho]
        left
        rfl

/-- C2: a query with no colon parses to operation `process` and the
trimmed full query as content; a query `a ++ ":" ++ b` (with the first
colon between `a` and `b`) parses to `a` trimmed and lower-cased as the
operation and `b` trimmed as the content. -/
theorem parse_query_spec :
    (∀ q : Str, ':' ∉ q → parse_query q = (lit "process", pyStrip q)) ∧
    (∀ a b : Str, ':' ∉ a →
      parse_query (a ++ ':' :: b) = (pyLower (pyStrip a), pyStrip b)) := by
  constructor
  · intro q h
    unfold parse_query
    rw [splitOnFirst_eq_none_of_not_mem h]
  · intro a b h
    unfold parse_query
    rw [splitOnFirst_append b h]

/-- Witness for C2 at the spec's example `"  ANALYZE :  data.txt "` and at
a colon-free query. -/
theorem parse_query_spec_witness :
    parse_query (lit "  ANALYZE :  data.txt ") = (lit "analyze", lit "data.txt") ∧
    parse_query (lit "hello world") = (lit "process", lit "hello world") := by
  have h1 := parse_query_spec.2 (lit "  ANALYZE ") (lit "  data.txt ") (by decide)
  have h2 := parse_query_spec.1 (lit "hello world") (by decide)
  constructor
  · rw [show lit "  ANALYZE :  data.txt " = lit "  ANALYZE " ++ ':' :: lit "  data.txt " by decide,
      h1]
    decide
  · rw [h2]
    decide

/-- C3: whenever the parsed operation is not one of the six recognized
names, `process` returns the error envelope listing exactly the six
supported operations, and performs no write (empty write list) — no
handler runs and no file-reference extraction takes place, as the returned
value does not depend on `efr`, `gfp`, `iu`, `t` or `ctx`. -/
theorem unsupported_operation_error (efr : Efr) (gfp : Gfp) (iu : IsUrl) (t : Time)
    (q : Str) (ctx : Ctx)
    (h : (parse_query q).1 ∉ supported_operations.map Prod.fst) :
    process efr gfp iu t q ctx =
      ({ status := lit "error",
         message := lit "Unsupported operation: " ++ (parse_query q).1,
         data := [(lit "supported_operations",
                   Val.list [Val.s (lit "process"), Val.s (lit "analyze"),
                             Val.s (lit "generate"), Val.s (lit "save"),
                             Val.s (lit "download"), Val.s (lit "extract")]),
                  (lit "suggestion", Val.s (lit "Try one of the supported operations"))] },
       []) := by
  rw [process_eq_of_lookup_none efr gfp iu t q ctx (lookupHandler_eq_none h)]
  rfl

/-- Witness for C3 at the spec's example query `"frobnicate: x"`. -/
theorem unsupported_operation_error_witness :
    process efr0 gfp0 iu0 t0 (lit "frobnicate: x") none =
      ({ status := lit "error",
         message := lit "Unsupported operation: frobnicate",
         data := [(lit "supported_operations",
                   Val.list [Val.s (lit "process"), Val.s (lit "analyze"),
                             Val.s (lit "generate"), Val.s (lit "save"),
                             Val.s (lit "download"), Val.s (lit "extract")]),
                  (lit "suggestion", Val.s (lit "Try one of the supported operations"))] },
       []) :=
  unsupported_operation_error efr0 gfp0 iu0 t0 (lit "frobnicate: x") none (by decide)

/-- C4: every call of `process` that returns status `success` has data
fields `demo_result`, `operation`, `result` and `timestamp`, where
`demo_result` is the capitalized operation name, `": "`, and the handler
result's `output` string. -/
theorem success_envelope_shape (efr : Efr) (gfp : Gfp) (iu : IsUrl) (t : Time)
    (q : Str) (ctx : Ctx)
    (h : (process efr gfp iu t q ctx).1.status = lit "success") :
    ∃ op res out,
      dlookup (process efr gfp iu t q ctx).1.data (lit "demo_result") =
        some (Val.s (pyCapitalize op ++ lit ": " ++ out)) ∧
      dlookup (process efr gfp iu t q ctx).1.data (lit "operation") = some (Val.s op) ∧
      dlookup (process efr gfp iu t q ctx).1.data (lit "result") = some (Val.dict res) ∧
      dlookup (process efr gfp iu t q ctx).1.data (lit "timestamp") = some (Val.s t.fmt) ∧
      dlookup res (lit "output") = some (Val.s out) := by
  rcases hl : lookupHandler (parse_query q).1 with - | handler
  · rw [process_eq_of_lookup_none efr gfp iu t q ctx hl] at h
    exact absurd h error_ne_success
  · rcases hr : handler gfp iu t (resolveContent efr gfp iu (parse_query q).2) ctx with e | ⟨ws, res⟩
    · rw [process_eq_of_lookup_some efr gfp iu t q ctx handler hl,
        runHandler_error _ _ _ _ _ _ _ _ _ hr] at h
      exact absurd h error_ne_success
    · rcases ho : dlookup res (lit "output") with - | out
      · rw [process_eq_of_lookup_some efr gfp iu t q ctx handler hl,
          runHandler_no_output _ _ _ _ _ _ _ _ _ _ hr ho] at h
        exact absurd h error_ne_success
      · obtain ⟨name, hmem⟩ := lookupHandler_mem hl
        obtain ⟨s, hs⟩ := handler_output_is_string name handler hmem gfp iu t _ ctx ws res hr
        rw [ho] at hs
        obtain rfl : out = Val.s s := Option.some.inj hs
        rw [process_eq_of_lookup_some efr gfp iu t q ctx handler hl,
          runHandler_ok _ _ _ _ _ _ _ _ _ _ _ hr ho]
        exact ⟨(parse_query q).1, res, s, rfl, rfl, rfl, rfl, ho⟩

/-- Witness for C4 at the successful call `"process: hi"`. -/
theorem success_envelope_shape_witness :
    ∃ op res out,
      dlookup (process efr0 gfp0 iu0 t0 (lit "process: hi") none).1.data (lit "demo_result") =
        some (Val.s (pyCapitalize op ++ lit ": " ++ out)) ∧
      dlookup (process efr0 gfp0 iu0 t0 (lit "process: hi") none).1.data (lit "operation") =
        some (Val.s op) ∧
      dlookup (process efr0 gfp0 iu0 t0 (lit "process: hi") none).1.data (lit "result") =
        some (Val.dict res) ∧
      dlookup (process efr0 gfp0 iu0 t0 (lit "process: hi") none).1.data (lit "timestamp") =
        some (Val.s t0.fmt) ∧
      dlookup res (lit "output") = some (Val.s out) :=
  success_envelope_shape efr0 gfp0 iu0 t0 (lit "process: hi") none rfl

/-- C5: the save operation on content `"report.txt:Hello"` (no file
reference detected in the content) writes exactly one file, whose contents
are `"Hello"`, and returns a success envelope with `data.result.size = 5`.
The envelope and the write list are given in full. -/
theorem save_roundtrip (gfp : Gfp) (iu : IsUrl) (t : Time) (ctx : Ctx) (efr : Efr)
    (hefr : efr (lit "report.txt:Hello") = none) :
    process efr gfp iu t (lit "save: report.txt:Hello") ctx =
      ({ status := lit "success",
         message := lit "Successfully processed save operation",
         data := [(lit "demo_result",
                   Val.s (lit "Save: Saved content to " ++
                     pathName (gfp (lit "report.txt") (lit "files")))),
                  (lit "operation", Val.s (lit "save")),
                  (lit "result",
                   Val.dict [(lit "output",
                              Val.s (lit "Saved content to " ++
                                pathName (gfp (lit "report.txt") (lit "files")))),
                             (lit "file_path", Val.s (gfp (lit "report.txt") (lit "files"))),
                             (lit "size", Val.n 5)]),
                  (lit "timestamp", Val.s t.fmt)] },
       [(gfp (lit "report.txt") (lit "files"), lit "Hello")]) := by
  rw [process_eq_of_lookup_some efr gfp iu t (lit "save: report.txt:Hello") ctx save_file rfl]
  rw [show (parse_query (lit "save: report.txt:Hello")).2 = lit "report.txt:Hello" from rfl]
  rw [resolveContent_of_none efr gfp iu (lit "report.txt:Hello") hefr]
  rfl

/-- Witness for C5 with the sample collaborators. -/
theorem save_roundtrip_witness :
    process efr0 gfp0 iu0 t0 (lit "save: report.txt:Hello") none =
      ({ status := lit "success",
         message := lit "Successfully processed save operation",
         data := [(lit "demo_result", Val.s (lit "Save: Saved content to report.txt")),
                  (lit "operation", Val.s (lit "save")),
                  (lit "result",
                   Val.dict [(lit "output", Val.s (lit "Saved content to report.txt")),
                             (lit "file_path", Val.s (lit "files/report.txt")),
                             (lit "size", Val.n 5)]),
                  (lit "timestamp", Val.s t0.fmt)] },
       [(lit "files/report.txt", lit "Hello")]) :=
  save_roundtrip gfp0 iu0 t0 none efr0 rfl

/-- C6: the save operation on any content without a colon (and with no
file reference detected, so the content reaches the handler as a plain
string) raises the format `ValueError` inside `_save_file`, which the
dispatcher reports as an error envelope — with no file written. -/
theorem save_missing_colon_error (s : Str) (gfp : Gfp) (iu : IsUrl) (t : Time)
    (ctx : Ctx) (efr : Efr)
    (h1 : ':' ∉ s) (h2 : efr (pyStrip s) = none) :
    process efr gfp iu t (lit "save:" ++ s) ctx =
      ({ status := lit "error",
         message := lit "An error occurred: Save operation requires format: filename:content",
         data := [(lit "error_type", Val.s (lit "unexpected_error")),
                  (lit "query_received", Val.s (lit "save:" ++ s)),
                  (lit "suggestion",
                   Val.s (lit "Please check the query format: operation: content"))] },
       []) := by
  have hsplit : splitOnFirst ':' (lit "save:" ++ s) = some (lit "save", s) := by
    rw [show lit "save:" ++ s = lit "save" ++ ':' :: s from rfl]
    exact splitOnFirst_append s (by decide)
  have hp : parse_query (lit "save:" ++ s) = (lit "save", pyStrip s) := by
    unfold parse_query
    simp only [hsplit]
    rfl
  have hp1 : (parse_query (lit "save:" ++ s)).1 = lit "save" := by rw [hp]
  have hp2 : (parse_query (lit "save:" ++ s)).2 = pyStrip s := by rw [hp]
  have hcol : ':' ∉ pyStrip s := fun hm => h1 (mem_of_mem_pyStrip hm)
  have hsave : save_file gfp iu t (Content.str (pyStrip s)) ctx =
      Except.error (lit "Save operation requires format: filename:content") := by
    simp only [save_file]
    rw [splitOnFirst_eq_none_of_not_mem hcol]
  rw [process_eq_of_lookup_some efr gfp iu t (lit "save:" ++ s) ctx save_file (by rw [hp1]; rfl)]
  rw [hp1, hp2]
  rw [resolveContent_of_none efr gfp iu (pyStrip s) h2]
  rw [runHandler_error _ _ _ _ _ _ _ _ _ hsave]
  rfl

/-- Witness for C6 at the spec's example `"save: report.txt"`. -/
theorem save_missing_colon_error_witness :
    process efr0 gfp0 iu0 t0 (lit "save: report.txt") none =
      ({ status := lit "error",
         message := lit "An error occurred: Save operation requires format: filename:content",
         data := [(lit "error_type", Val.s (lit "unexpected_error")),
                  (lit "query_received", Val.s (lit "save: report.txt")),
                  (lit "suggestion",
                   Val.s (lit "Please check the query format: operation: content"))] },
       []) :=
  save_missing_colon_error (lit " report.txt") gfp0 iu0 t0 none efr0 (by decide) rfl

/-- C7 is false as stated: the download handler's output file name is
`Path(url).name` with no timestamp, so two consecutive calls with the same
input (here at two different times, one second apart) each produce a file
at the very same path — not distinct paths. -/
theorem download_path_not_timestamped :
    t0.epoch ≠ t1.epoch ∧
    writePaths (download_content gfp0 iu0 t0
      (Content.str (lit "https://example.com/data.json")) none) =
      [lit "downloads/data.json"] ∧
    writePaths (download_content gfp0 iu0 t1
      (Content.str (lit "https://example.com/data.json")) none) =
      [lit "downloads/data.json"] :=
  ⟨by decide, by decide, by decide⟩

/-- C7 (amended): for `generate` and `extract` two calls with identical
input each write exactly one file, and the two paths are distinct whenever
the integer timestamps of the two calls differ (given that the external
path resolver is injective in the file name); for `download` the written
paths do not depend on the call time at all, so identical inputs give
identical paths. -/
theorem timestamped_paths_amended (gfp : Gfp) (iu : IsUrl) (ta tb : Time)
    (c : Content) (ctx1 ctx2 : Ctx)
    (hinj : ∀ n1 n2 : Str, gfp n1 (lit "files") = gfp n2 (lit "files") → n1 = n2)
    (ht : ta.epoch ≠ tb.epoch) :
    (∃ p1 p2, writePaths (generate_content gfp iu ta c ctx1) = [p1] ∧
              writePaths (generate_content gfp iu tb c ctx2) = [p2] ∧ p1 ≠ p2) ∧
    (∃ p1 p2, writePaths (extract_info gfp iu ta c ctx1) = [p1] ∧
              writePaths (extract_info gfp iu tb c ctx2) = [p2] ∧ p1 ≠ p2) ∧
    writePaths (download_content gfp iu ta c ctx1) =
      writePaths (download_content gfp iu tb c ctx2) := by
  have hname : ∀ pre post : Str, ∀ x y : Nat,
      pre ++ natRepr x ++ post = pre ++ natRepr y ++ post → x = y := by
    intro pre post x y hxy
    exact natRepr_injective (List.append_cancel_left (List.append_cancel_right hxy))
  refine ⟨⟨gfp (lit "generated_" ++ natRepr ta.epoch ++ lit ".txt") (lit "files"),
           gfp (lit "generated_" ++ natRepr tb.epoch ++ lit ".txt") (lit "files"),
           rfl, rfl, ?_⟩,
          ⟨gfp (lit "extracted_" ++ natRepr ta.epoch ++ lit ".txt") (lit "files"),
           gfp (lit "extracted_" ++ natRepr tb.epoch ++ lit ".txt") (lit "files"),
           rfl, rfl, ?_⟩, ?_⟩
  · intro hpq
    exact ht (hname (lit "generated_") (lit ".txt") ta.epoch tb.epoch (hinj _ _ hpq))
  · intro hpq
    exact ht (hname (lit "extracted_") (lit ".txt") ta.epoch tb.epoch (hinj _ _ hpq))
  · rcases c with s | ⟨f, fp, u, q2⟩
    · simp only [download_content]
      split
      · rfl
      · rfl
    · simp only [download_content]
      split
      · rfl
      · rfl

/-- Witness for C7 (amended) with the sample collaborators. -/
theorem timestamped_paths_amended_witness :
    (∃ p1 p2, writePaths (generate_content gfp0 iu0 t0 (Content.str (lit "doc")) none) = [p1] ∧
              writePaths (generate_content gfp0 iu0 t1 (Content.str (lit "doc")) none) = [p2] ∧
              p1 ≠ p2) ∧
    (∃ p1 p2, writePaths (extract_info gfp0 iu0 t0 (Content.str (lit "doc")) none) = [p1] ∧
              writePaths (extract_info gfp0 iu0 t1 (Content.str (lit "doc")) none) = [p2] ∧
              p1 ≠ p2) ∧
    writePaths (download_content gfp0 iu0 t0 (Content.str (lit "doc")) none) =
      writePaths (download_content gfp0 iu0 t1 (Content.str (lit "doc")) none) :=
  timestamped_paths_amended gfp0 iu0 t0 t1 (Content.str (lit "doc")) none none
    (fun n1 n2 h => by
      have h2 : lit "files" ++ '/' :: n1 = lit "files" ++ '/' :: n2 := h
      exact (List.cons.inj (List.append_cancel_left h2)).2)
    (by decide)

/-- C8: the context never alters control flow.  For each of the six
handlers, a fixed content and time give the same success-or-error outcome
and the same written file paths under any two contexts (including None);
the context keys `content`, `metadata`, `answer` only annotate the output
narrative and the handler-specific annotation fields. -/
theorem context_no_control_flow (gfp : Gfp) (iu : IsUrl) (t : Time) (c : Content)
    (ctx1 ctx2 : Ctx) :
    (hIsOk (process_text gfp iu t c ctx1) = hIsOk (process_text gfp iu t c ctx2) ∧
     writePaths (process_text gfp iu t c ctx1) = writePaths (process_text gfp iu t c ctx2)) ∧
    (hIsOk (analyze_data gfp iu t c ctx1) = hIsOk (analyze_data gfp iu t c ctx2) ∧
     writePaths (analyze_data gfp iu t c ctx1) = writePaths (analyze_data gfp iu t c ctx2)) ∧
    (hIsOk (generate_content gfp iu t c ctx1) = hIsOk (generate_content gfp iu t c ctx2) ∧
     writePaths (generate_content gfp iu t c ctx1) =
       writePaths (generate_content gfp iu t c ctx2)) ∧
    (hIsOk (save_file gfp iu t c ctx1) = hIsOk (save_file gfp iu t c ctx2) ∧
     writePaths (save_file gfp iu t c ctx1) = writePaths (save_file gfp iu t c ctx2)) ∧
    (hIsOk (download_content gfp iu t c ctx1) = hIsOk (download_content gfp iu t c ctx2) ∧
     writePaths (download_content gfp iu t c ctx1) =
       writePaths (download_content gfp iu t c ctx2)) ∧
    (hIsOk (extract_info gfp iu t c ctx1) = hIsOk (extract_info gfp iu t c ctx2) ∧
     writePaths (extract_info gfp iu t c ctx1) = writePaths (extract_info gfp iu t c ctx2)) := by
  refine ⟨⟨?_, ?_⟩, ⟨?_, ?_⟩, ⟨?_, ?_⟩, ⟨rfl, rfl⟩, ⟨rfl, rfl⟩, ⟨?_, ?_⟩⟩ <;>
    simp only [process_text_ok, process_text_paths, analyze_data_ok, analyze_data_paths,
      generate_content_ok, generate_content_paths, extract_info_ok, extract_info_paths]

/-- C9 is false as stated: the unsupported-operation error envelope
carries `supported_operations` and `suggestion` but no `error_type`
field. -/
theorem unsupported_envelope_lacks_error_type :
    (process efr0 gfp0 iu0 t0 (lit "frobnicate: x") none).1.status = lit "error" ∧
    dlookup (process efr0 gfp0 iu0 t0 (lit "frobnicate: x") none).1.data (lit "error_type") =
      none :=
  ⟨rfl, rfl⟩

/-- C9 (amended): every error envelope either comes from the exception
path and then its data carries `error_type = "unexpected_error"`, or it is
the unsupported-operation envelope, whose data carries the
`supported_operations` list instead of an `error_type` field. -/
theorem error_envelope_diagnostics (efr : Efr) (gfp : Gfp) (iu : IsUrl) (t : Time)
    (q : Str) (ctx : Ctx)
    (h : (process efr gfp iu t q ctx).1.status = lit "error") :
    dlookup (process efr gfp iu t q ctx).1.data (lit "error_type") =
      some (Val.s (lit "unexpected_error")) ∨
    dlookup (process efr gfp iu t q ctx).1.data (lit "supported_operations") =
      some (Val.list [Val.s (lit "process"), Val.s (lit "analyze"),
                      Val.s (lit "generate"), Val.s (lit "save"),
                      Val.s (lit "download"), Val.s (lit "extract")]) := by
  rcases hl : lookupHandler (parse_query q).1 with - | handler
  · rw [process_eq_of_lookup_none efr gfp iu t q ctx hl]
    right
    rfl
  · rcases hr : handler gfp iu t (resolveContent efr gfp iu (parse_query q).2) ctx with e | ⟨ws, res⟩
    · rw [process_eq_of_lookup_some efr gfp iu t q ctx handler hl,
        runHandler_error _ _ _ _ _ _ _ _ _ hr]
      left
      rfl
    · rcases ho : dlookup res (lit "output") with - | out
      · rw [process_eq_of_lookup_some efr gfp iu t q ctx handler hl,
          runHandler_no_output _ _ _ _ _ _ _ _ _ _ hr ho]
        left
        rfl
      · exfalso
        rw [process_eq_of_lookup_some efr gfp iu t q ctx handler hl,
          runHandler_ok _ _ _ _ _ _ _ _ _ _ _ hr ho] at h
        exact absurd h success_ne_error

/-- Witness for C9 (amended) at an error-returning call. -/
theorem error_envelope_diagnostics_witness :
    dlookup (process efr0 gfp0 iu0 t0 (lit "save: report.txt") none).1.data (lit "error_type") =
      some (Val.s (lit "unexpected_error")) ∨
    dlookup (process efr0 gfp0 iu0 t0 (lit "save: report.txt") none).1.data
      (lit "supported_operations") =
      some (Val.list [Val.s (lit "process"), Val.s (lit "analyze"),
                      Val.s (lit "generate"), Val.s (lit "save"),
                      Val.s (lit "download"), Val.s (lit "extract")]) :=
  error_envelope_diagnostics efr0 gfp0 iu0 t0 (lit "save: report.txt") none rfl

/-- C10: a query whose text before the first colon is only whitespace (in
particular one that begins with a colon) parses to the empty operation, so
`process` returns the unsupported-operation error envelope instead of
defaulting the operation to `process`. -/
theorem empty_operation_unsupported (a b : Str) (efr : Efr) (gfp : Gfp) (iu : IsUrl)
    (t : Time) (ctx : Ctx) (h : ∀ c ∈ a, pyIsSpace c = true) :
    parse_query (a ++ ':' :: b) = ([], pyStrip b) ∧
    process efr gfp iu t (a ++ ':' :: b) ctx = (unsupportedEnvelope [], []) := by
  have hna : ':' ∉ a := fun hm => absurd (h ':' hm) (by decide)
  have hp : parse_query (a ++ ':' :: b) = ([], pyStrip b) := by
    unfold parse_query
    simp only [splitOnFirst_append b hna]
    rw [pyStrip_eq_nil h]
    rfl
  have hp1 : (parse_query (a ++ ':' :: b)).1 = ([] : Str) := by rw [hp]
  refine ⟨hp, ?_⟩
  rw [process_eq_of_lookup_none efr gfp iu t (a ++ ':' :: b) ctx (by rw [hp1]; rfl)]
  rw [hp1]

/-- Witness for C10 at the query `": hello"`. -/
theorem empty_operation_unsupported_witness :
    parse_query (lit ": hello") = ([], lit "hello") ∧
    process efr0 gfp0 iu0 t0 (lit ": hello") none = (unsupportedEnvelope [], []) :=
  empty_operation_unsupported [] (lit " hello") efr0 gfp0 iu0 t0 none (by decide)

end WaveModules
